import Mathlib

/-!
Verification development for the pyignite wire layer
(`pyignite/api/key_value.py` and `pyignite/api/cache_config.py`).

The per-operation functions are embedded from the source files. Supporting
modules that the source imports but that are not part of the given files
(`pyignite.utils`, `pyignite.queries`, `pyignite.api.result`,
`pyignite.datatypes`) are modelled from the specification document; each such
definition carries a doc comment saying so.
-/

namespace PyIgnite

/-- Byte strings are lists of naturals; every entry produced by the encoders
below is `< 256` by construction (`% 256`). -/
abbrev Bytes := List Nat

/-- Little-endian encoding of `v` into exactly `w` bytes, truncating
modulo `256 ^ w` (as `struct.pack` with a little-endian format does). -/
def encLE : Nat → Nat → Bytes
  | 0, _ => []
  | w + 1, v => (v % 256) :: encLE w (v / 256)

/-- Read `w` bytes little-endian from the front of a byte string, returning
the value and the remaining bytes. -/
def decLE : Nat → Bytes → Option (Nat × Bytes)
  | 0, bs => some (0, bs)
  | _ + 1, [] => none
  | w + 1, b :: bs => (decLE w bs).map (fun p => (b + 256 * p.1, p.2))

theorem byte_split (v n : Nat) :
    v % 256 ^ (n + 1) = v % 256 + 256 * (v / 256 % 256 ^ n) := by
  have hp : (256 : Nat) ^ (n + 1) = 256 * 256 ^ n := pow_succ' 256 n
  have h1 : v % (256 * 256 ^ n) % 256 = v % 256 :=
    Nat.mod_mod_of_dvd v ⟨256 ^ n, rfl⟩
  have h2 : v % (256 * 256 ^ n) / 256 = v / 256 % 256 ^ n :=
    Nat.mod_mul_right_div_self v 256 (256 ^ n)
  rw [hp]
  calc v % (256 * 256 ^ n)
      = 256 * (v % (256 * 256 ^ n) / 256) + v % (256 * 256 ^ n) % 256 :=
        (Nat.div_add_mod _ 256).symm
    _ = 256 * (v / 256 % 256 ^ n) + v % 256 := by rw [h1, h2]
    _ = v % 256 + 256 * (v / 256 % 256 ^ n) := Nat.add_comm _ _

theorem decLE_encLE : ∀ (w v : Nat) (r : Bytes),
    decLE w (encLE w v ++ r) = some (v % 256 ^ w, r)
  | 0, v, r => by simp [encLE, decLE, Nat.mod_one]
  | w + 1, v, r => by
    simp [encLE, decLE, decLE_encLE w (v / 256) r, byte_split]

theorem decLE_encLE_nil (w v : Nat) :
    decLE w (encLE w v) = some (v % 256 ^ w, []) := by
  have h := decLE_encLE w v []
  simpa using h

/-- Modelled from the spec: the cache-name hash accumulates
`h = 31 * h + code_point` over UTF-16 code units with 32-bit wraparound
(§4.1); the hashing code itself (`pyignite.utils`) is not among the given
source files. The UTF-16 code units of one character: the code point itself
for BMP characters, a surrogate pair for supplementary ones. -/
def charUtf16 (c : Char) : List Nat :=
  if c.toNat < 0x10000 then [c.toNat]
  else
    let v := c.toNat - 0x10000
    [0xD800 + v / 0x400, 0xDC00 + v % 0x400]

/-- UTF-16 code units of a string, in order. -/
def utf16Units (s : String) : List Nat :=
  s.data.flatMap charUtf16

/-- Modelled from the spec: one step of the polynomial hash,
`h = 31 * h + code_point` with 32-bit wraparound (§4.1). -/
def hashStep (h c : Nat) : Nat :=
  (31 * h + c) % 2 ^ 32

/-- Modelled from the spec: the full string hash, seeded with 0 (§4.1). -/
def strHash (s : String) : Nat :=
  (utf16Units s).foldl hashStep 0

/-- Interpret an unsigned 32-bit value as a signed 32-bit integer. -/
def toSigned32 (n : Nat) : Int :=
  if n < 2 ^ 31 then (n : Int) else (n : Int) - 2 ^ 32

/-- Modelled from the spec: `cache_id` (imported from `pyignite.utils`,
not among the given files) maps a cache name to its 32-bit identifier by
hashing, and passes a numeric identifier through unchanged ("if a caller
already holds a numeric identifier, hashing is skipped", §4.1). -/
def cache_id : String ⊕ Int → Int
  | .inr i => i
  | .inl s => toSigned32 (strHash s)

/-- Modelled from the spec: the named Ignite data types imported by the two
source files from `pyignite.datatypes` (§2 "TypeDescriptor registry"; the
module itself is not among the given files). Each constructor stands for one
descriptor; `anyDataObject` is the default used when no hint is given. -/
inductive TypeDesc where
  | int
  | byte
  | short
  | long
  | bool
  | string
  | stringArray
  | map
  | anyDataObject
  | anyDataArray
  | peekModes
  | cacheConfigStruct
  deriving DecidableEq, Repr

/-- Modelled from the spec: the fixed-width primitive descriptors and their
byte widths (§6 lists null, boolean, byte, short, int, long, float, double as
fixed primitives); variable-length descriptors have no fixed width. -/
def fixedWidth : TypeDesc → Option Nat
  | .byte => some 1
  | .short => some 2
  | .int => some 4
  | .long => some 8
  | .bool => some 1
  | _ => none

/-- Native Python values that the two source files place into request field
dictionaries: integers, strings, booleans, `None`, and lists of integers
(the normalized `peek_modes`). -/
inductive PyValue where
  | pyNone
  | int (n : Int)
  | str (s : String)
  | bool (b : Bool)
  | intList (xs : List Int)
  deriving DecidableEq, Repr

/-- Decoded result payloads: a single field's value (most operations) or the
whole decoded field dictionary (`cache_put` assigns `to_python(response)`). -/
inductive ResultValue where
  | single (v : PyValue)
  | fieldMap (fs : List (String × PyValue))
  deriving DecidableEq, Repr

/-- Modelled from the spec: operation codes are cluster-protocol constants
imported from `pyignite.queries.op_codes` (not among the given files); the
exact numeric values are protocol constants (§9), only their distinctness
matters here. -/
def OP_CACHE_GET : Nat := 1000

/-- Modelled from the spec: operation code for the cache-put verb. -/
def OP_CACHE_PUT : Nat := 1001

/-- Modelled from the spec: operation code for cache-get-size. -/
def OP_CACHE_GET_SIZE : Nat := 1020

/-- Modelled from the spec: operation code for cache-get-configuration. -/
def OP_CACHE_GET_CONFIGURATION : Nat := 1055

/-- Modelled from the spec: operation code for cache-create-with-configuration. -/
def OP_CACHE_CREATE_WITH_CONFIGURATION : Nat := 1053

/-- Modelled from the spec: operation code for cache-get-or-create-with-configuration. -/
def OP_CACHE_GET_OR_CREATE_WITH_CONFIGURATION : Nat := 1054

/-- A request as assembled by the per-operation functions before transport:
the operation code of the `Query` subclass, the ordered field schema passed
to the `Query` constructor, the field-value dictionary passed to
`from_python` (as an association list in source order), and the optional
caller-supplied query id. -/
structure Request where
  op_code : Nat
  schema : List (String × TypeDesc)
  values : List (String × PyValue)
  query_id : Option Nat
  deriving DecidableEq, Repr

/-- Embedded from `key_value.py`, `cache_put` (lines 53-68): the request it
assembles. `key_hint or AnyDataObject` becomes `Option.getD`. -/
def cache_put_request (cache : String ⊕ Int) (key value : PyValue)
    (key_hint value_hint : Option TypeDesc) (binary : Bool)
    (query_id : Option Nat) : Request :=
  { op_code := OP_CACHE_PUT
    schema := [("hash_code", .int), ("flag", .byte),
               ("key", key_hint.getD .anyDataObject),
               ("value", value_hint.getD .anyDataObject)]
    values := [("hash_code", .int (cache_id cache)),
               ("flag", .int (if binary then 1 else 0)),
               ("key", key), ("value", value)]
    query_id := query_id }

/-- Embedded from `key_value.py`, `cache_get` (lines 104-117): the request it
assembles. -/
def cache_get_request (cache : String ⊕ Int) (key : PyValue)
    (key_hint : Option TypeDesc) (binary : Bool)
    (query_id : Option Nat) : Request :=
  { op_code := OP_CACHE_GET
    schema := [("hash_code", .int), ("flag", .byte),
               ("key", key_hint.getD .anyDataObject)]
    values := [("hash_code", .int (cache_id cache)),
               ("flag", .int (if binary then 1 else 0)),
               ("key", key)]
    query_id := query_id }

/-- Argument shapes `cache_get_size` accepts for `peek_modes`: a scalar or a
list/tuple (both sequence forms collapse to one constructor). -/
inductive PeekModesArg where
  | scalar (n : Int)
  | seq (xs : List Int)
  deriving DecidableEq, Repr

/-- Embedded from `key_value.py`, `cache_get_size` (lines 1068-1072): the
normalization of `peek_modes` — a non-sequence equal to 0 becomes `[]`, any
other non-sequence `x` becomes `[x]`, a sequence passes through. -/
def normalizePeekModes : PeekModesArg → List Int
  | .scalar n => if n = 0 then [] else [n]
  | .seq xs => xs

/-- Embedded from `key_value.py`, `cache_get_size` (lines 1068-1087): the
request it assembles after normalizing `peek_modes`. -/
def cache_get_size_request (cache : String ⊕ Int) (peek_modes : PeekModesArg)
    (binary : Bool) (query_id : Option Nat) : Request :=
  { op_code := OP_CACHE_GET_SIZE
    schema := [("hash_code", .int), ("flag", .byte),
               ("peek_modes", .peekModes)]
    values := [("hash_code", .int (cache_id cache)),
               ("flag", .int (if binary then 1 else 0)),
               ("peek_modes", .intList (normalizePeekModes peek_modes))]
    query_id := query_id }

/-- Error raised by the property-code table lookup. -/
inductive ConfigError where
  | unknownProperty (code : Nat)
  deriving DecidableEq, Repr

/-- Embedded from `cache_config.py`, `cache_create_with_config` lines
227-231: the loop that, for each `(prop_code, prop_value)` item of the
property dictionary in iteration (= insertion) order, binds
`property_i ↦ prop_map(prop_code)` in `prop_types` and
`property_i ↦ prop_value` in `prop_values`. The static property-code→type
table `prop_map` (from `pyignite.datatypes.cache_properties`, not among the
given files) is passed as the parameter `table`; per the spec it fails with
an UnknownPropertyError when a code has no table entry (§4.4). -/
def propEntries (table : Nat → Option TypeDesc) :
    List (Nat × PyValue) → Nat →
    Except ConfigError (List (String × TypeDesc) × List (String × PyValue))
  | [], _ => .ok ([], [])
  | (code, v) :: rest, i =>
    match table code with
    | none => .error (.unknownProperty code)
    | some td =>
      match propEntries table rest (i + 1) with
      | .error e => .error e
      | .ok (ts, vs) =>
        .ok (("property_" ++ toString i, td) :: ts,
             ("property_" ++ toString i, v) :: vs)

/-- Embedded from `cache_config.py`, `cache_create_with_config`
(lines 222-238): the request it assembles. The schema is
`[('param_count', Short)] + list(prop_types.items())` and the value
dictionary is the properties plus `param_count = len(cache_props)`
(appended last, as in the source). -/
def cache_create_with_config_request (table : Nat → Option TypeDesc)
    (cache_props : List (Nat × PyValue)) (query_id : Option Nat) :
    Except ConfigError Request :=
  match propEntries table cache_props 0 with
  | .error e => .error e
  | .ok (ts, vs) =>
    .ok { op_code := OP_CACHE_CREATE_WITH_CONFIGURATION
          schema := ("param_count", .short) :: ts
          values := vs ++ [("param_count", .int cache_props.length)]
          query_id := query_id }

/-- Embedded from `cache_config.py`, `cache_get_or_create_with_config`
(lines 266-282): the request it assembles; the body is the same as
`cache_create_with_config` apart from the operation code. -/
def cache_get_or_create_with_config_request (table : Nat → Option TypeDesc)
    (cache_props : List (Nat × PyValue)) (query_id : Option Nat) :
    Except ConfigError Request :=
  match propEntries table cache_props 0 with
  | .error e => .error e
  | .ok (ts, vs) =>
    .ok { op_code := OP_CACHE_GET_OR_CREATE_WITH_CONFIGURATION
          schema := ("param_count", .short) :: ts
          values := vs ++ [("param_count", .int cache_props.length)]
          query_id := query_id }

/-- Body of a parsed response frame: on success the decoded schema fields,
on failure the raw bytes of the length-prefixed UTF-8 error string
(§3 "ResponseFrame", §6). -/
inductive RespBody where
  | success (fields : List (String × PyValue))
  | failure (errText : Bytes)
  deriving DecidableEq, Repr

/-- Modelled from the spec: a parsed response frame — total length, echoed
query id, status code, and the body (§3, §6); the frame parser lives in
`pyignite.queries` which is not among the given files. -/
structure ResponseFrame where
  length : Nat
  query_id : Nat
  status : Nat
  body : RespBody
  deriving DecidableEq, Repr

/-- Modelled from the spec: read the response header
`[i32 length][i64 query_id][i32 status]` (§6), little-endian. -/
def decodeHeader (bs : Bytes) : Option (Nat × Nat × Nat × Bytes) :=
  (decLE 4 bs).bind fun pl =>
    (decLE 8 pl.2).bind fun pq =>
      (decLE 4 pq.2).bind fun ps =>
        some (pl.1, pq.1, ps.1, ps.2)

/-- Modelled from the spec: decode the declared response fields in schema
order, threading the remaining bytes; `fdec` is the per-descriptor decoder
of the TypeDescriptor registry (§4.2, not among the given files), kept as a
parameter. -/
def decodeFields (fdec : TypeDesc → Bytes → Option (PyValue × Bytes)) :
    List (String × TypeDesc) → Bytes →
    Option (List (String × PyValue) × Bytes)
  | [], bs => some ([], bs)
  | (name, td) :: rest, bs =>
    (fdec td bs).bind fun pv =>
      (decodeFields fdec rest pv.2).map fun pr =>
        ((name, pv.1) :: pr.1, pr.2)

/-- Modelled from the spec: `decode_response` (§4.3, §6). Reads the header;
on status 0 decodes each declared field in order and fails if trailing bytes
remain; on nonzero status reads the remaining bytes as a length-prefixed
UTF-8 error string. -/
def decode_response (fdec : TypeDesc → Bytes → Option (PyValue × Bytes))
    (schema : List (String × TypeDesc)) (bs : Bytes) :
    Option ResponseFrame :=
  (decodeHeader bs).bind fun h =>
    match h with
    | (len, qid, status, rest) =>
      if status = 0 then
        (decodeFields fdec schema rest).bind fun pf =>
          if pf.2 = [] then some ⟨len, qid, status, .success pf.1⟩ else none
      else
        (decLE 4 rest).bind fun pe =>
          if pe.2.length = pe.1 then some ⟨len, qid, status, .failure pe.2⟩
          else none

/-- Modelled from the spec: the result wrapper — status, error text when the
call failed, decoded value when one was produced (§3 "APIResult", §4.5); the
class itself (`pyignite/api/result.py`) is not among the given files. -/
structure APIResult where
  status : Nat
  message : Option Bytes
  value : Option ResultValue
  deriving DecidableEq, Repr

/-- Modelled from the spec: constructing `APIResult(response)` — takes the
status and, on failure, the error text from the frame; the value field
starts absent (§4.5). -/
def mkAPIResult (frame : ResponseFrame) : APIResult :=
  { status := frame.status
    message := match frame.body with
               | .failure e => some e
               | .success _ => none
    value := none }

/-- Modelled from the spec: `Response.to_python` returns the decoded field
dictionary, or no value at all when the response schema declares no fields
(the canonical empty-bodied success "yields an APIResult with status 0 and
no value", §8). -/
def to_python (fields : List (String × PyValue)) :
    Option (List (String × PyValue)) :=
  if fields = [] then none else some fields

/-- Embedded from the shared per-operation result pattern of both source
files (e.g. `key_value.py` lines 76-80, 127-131; `cache_config.py` lines
73-77): build `APIResult(response)`, return it unchanged when the status is
nonzero, otherwise assign the value extracted from the decoded fields. -/
def op_handle (extract : List (String × PyValue) → Option ResultValue)
    (frame : ResponseFrame) : APIResult :=
  let result := mkAPIResult frame
  if frame.status ≠ 0 then result
  else
    { result with
      value := match frame.body with
               | .success fs => extract fs
               | .failure _ => none }

/-- Embedded from `key_value.py`, `cache_put` lines 76-80:
`result.value = response_struct.to_python(response)` — the whole decoded
dictionary (absent for the empty response schema). -/
def cache_put_handle : ResponseFrame → APIResult :=
  op_handle (fun fs => (to_python fs).map .fieldMap)

/-- Embedded from `key_value.py`, `cache_get` lines 127-131:
`result.value = response_struct.to_python(response)['value']`. -/
def cache_get_handle : ResponseFrame → APIResult :=
  op_handle (fun fs => ((to_python fs).bind (List.lookup "value")).map .single)

/-- Embedded from `key_value.py`, `cache_put` lines 72-80: the response
schema is `Response([])` and the parsed frame is turned into an APIResult by
`cache_put_handle`. -/
def cache_put_on_response (fdec : TypeDesc → Bytes → Option (PyValue × Bytes))
    (bs : Bytes) : Option APIResult :=
  (decode_response fdec [] bs).map cache_put_handle

/-- Modelled from the spec: `encode_request` produces
`[i32 length][i16 op_code][i64 query_id][body]` with `length` counting every
byte after itself (§6). -/
def encode_request (op qid : Nat) (body : Bytes) : Bytes :=
  encLE 4 (2 + 8 + body.length) ++ encLE 2 op ++ encLE 8 qid ++ body

/-- Modelled from the spec: a raw response frame
`[i32 length][i64 query_id][i32 status][rest]` (§6). -/
def mkResponseBytes (qid status : Nat) (rest : Bytes) : Bytes :=
  encLE 4 (8 + 4 + rest.length) ++ encLE 8 qid ++ encLE 4 status ++ rest

/-- Modelled from the spec: the response corresponding to a request echoes
the request's query identifier unchanged (§3, §4.3). Extracts the query id
from the encoded request and frames the given status and body with it. -/
def respond_to (request : Bytes) (status : Nat) (rest : Bytes) :
    Option Bytes :=
  (decLE 4 request).bind fun pl =>
    (decLE 2 pl.2).bind fun po =>
      (decLE 8 po.2).bind fun pq =>
        some (mkResponseBytes pq.1 status rest)

/-- Canonical success response bytes: status 0, empty body (§8). -/
def canonicalSuccess (qid : Nat) : Bytes :=
  mkResponseBytes qid 0 []

/-- A sample property-code→type table used to instantiate theorems at
concrete inputs (the real table is a cluster-protocol constant not shown in
the given source, §9): code 0 is the name property (string), codes 1 and 2
are illustrative int- and string-valued properties. -/
def sampleTable : Nat → Option TypeDesc
  | 0 => some .string
  | 1 => some .int
  | 2 => some .string
  | _ => none

/-- A sample per-descriptor field decoder used to instantiate theorems at
concrete inputs: decodes nothing (only empty response schemas use it). -/
def sampleFdec : TypeDesc → Bytes → Option (PyValue × Bytes) :=
  fun _ _ => none

/-- C5: the cache-name hash is pure and deterministic (same input, same
output, independent of call order), `hash("") = 0`, `hash("Hello") =
69609650`, and it satisfies the polynomial recurrence `h = 31*h +
code_point` over UTF-16 code units with 32-bit wraparound, seeded with 0. -/
theorem c5_hash_stability :
    cache_id (.inl "") = 0 ∧
    cache_id (.inl "Hello") = 69609650 ∧
    (∀ s t : String, s = t → cache_id (.inl s) = cache_id (.inl t)) ∧
    (∀ (s : String) (c : Char), c.toNat < 0x10000 →
      strHash (s.push c) = (31 * strHash s + c.toNat) % 2 ^ 32) := by
  refine ⟨by decide, by decide, fun s t h => by rw [h], fun s c hc => ?_⟩
  have hdata : utf16Units (s.push c) = utf16Units s ++ charUtf16 c := by
    simp [utf16Units, String.data_push, List.flatMap_append]
  have hc16 : charUtf16 c = [c.toNat] := by simp [charUtf16, hc]
  simp [strHash, hdata, hc16, List.foldl_append, hashStep]

/-- C5 witness: the recurrence instantiated at `"Hel"` and `'l'`. -/
theorem c5_hash_stability_witness :
    strHash (String.push "Hel" 'l') = (31 * strHash "Hel" + Char.toNat 'l') % 2 ^ 32 :=
  c5_hash_stability.2.2.2 "Hel" 'l' (by decide)

/-- C1: for every cache, key and value, a `cache_put` call carries op-code
OP_CACHE_PUT, and decoding the canonical success response (status 0, empty
body) through `cache_put`'s response handling yields an APIResult with
status 0 and no value. -/
theorem c1_cache_put_canonical_success
    (cache : String ⊕ Int) (key value : PyValue)
    (key_hint value_hint : Option TypeDesc) (binary : Bool)
    (query_id : Option Nat)
    (fdec : TypeDesc → Bytes → Option (PyValue × Bytes)) (rqid : Nat) :
    (cache_put_request cache key value key_hint value_hint binary
        query_id).op_code = OP_CACHE_PUT ∧
    cache_put_on_response fdec (canonicalSuccess rqid)
      = some { status := 0, message := none, value := none } := by
  refine ⟨rfl, ?_⟩
  simp [cache_put_on_response, decode_response, decodeHeader, canonicalSuccess,
    mkResponseBytes, decLE_encLE, decLE_encLE_nil, List.append_assoc,
    decodeFields, cache_put_handle, op_handle, mkAPIResult, to_python]

/-- C9: every embedded key-value request builder taking a `binary` parameter
populates the `flag` field with 1 when `binary` is true and 0 when it is
false, for all other argument values. -/
theorem c9_binary_flag (cache : String ⊕ Int) (key value : PyValue)
    (key_hint value_hint : Option TypeDesc) (binary : Bool)
    (query_id : Option Nat) (peek_modes : PeekModesArg) :
    List.lookup "flag"
        (cache_put_request cache key value key_hint value_hint binary
          query_id).values
      = some (.int (if binary then 1 else 0)) ∧
    List.lookup "flag"
        (cache_get_request cache key key_hint binary query_id).values
      = some (.int (if binary then 1 else 0)) ∧
    List.lookup "flag"
        (cache_get_size_request cache peek_modes binary query_id).values
      = some (.int (if binary then 1 else 0)) :=
  ⟨rfl, rfl, rfl⟩

/-- C10: `cache_get_size` normalizes `peek_modes` before encoding — a scalar
0 becomes the empty list, any other scalar `x` becomes `[x]`, and a
list/tuple passes through unchanged as the `peek_modes` field. -/
theorem c10_peek_modes_normalization (cache : String ⊕ Int) (binary : Bool)
    (query_id : Option Nat) (n : Int) (xs : List Int) (hn : n ≠ 0) :
    List.lookup "peek_modes"
        (cache_get_size_request cache (.scalar 0) binary query_id).values
      = some (.intList []) ∧
    List.lookup "peek_modes"
        (cache_get_size_request cache (.scalar n) binary query_id).values
      = some (.intList [n]) ∧
    List.lookup "peek_modes"
        (cache_get_size_request cache (.seq xs) binary query_id).values
      = some (.intList xs) := by
  refine ⟨rfl, ?_, rfl⟩
  simp [cache_get_size_request, normalizePeekModes, hn, List.lookup]

/-- C10 witness: the nonzero-scalar case instantiated at 3. -/
theorem c10_peek_modes_normalization_witness :
    List.lookup "peek_modes"
        (cache_get_size_request (.inr 1) (.scalar 3) false none).values
      = some (.intList [3]) :=
  (c10_peek_modes_normalization (.inr 1) false none 3 [] (by decide)).2.1

theorem propEntries_spec (table : Nat → Option TypeDesc) :
    ∀ (props : List (Nat × PyValue)) (i : Nat)
      (ts : List (String × TypeDesc)) (vs : List (String × PyValue)),
      propEntries table props i = .ok (ts, vs) →
      vs.map Prod.snd = props.map Prod.snd ∧
      ts.length = props.length ∧ vs.length = props.length
  | [], i, ts, vs, h => by
    simp [propEntries] at h
    simp [h.1, h.2]
  | (c, v) :: rest, i, ts, vs, h => by
    cases htc : table c with
    | none => simp [propEntries, htc] at h
    | some td =>
      cases hrec : propEntries table rest (i + 1) with
      | error e => simp [propEntries, htc, hrec] at h
      | ok p =>
        obtain ⟨ts', vs'⟩ := p
        simp [propEntries, htc, hrec] at h
        obtain ⟨hs, hv⟩ := h
        subst hs; subst hv
        have ih := propEntries_spec table rest (i + 1) ts' vs' hrec
        simp [ih.1, ih.2.1, ih.2.2]

theorem propEntries_unknown (table : Nat → Option TypeDesc) :
    ∀ (props : List (Nat × PyValue)) (i c : Nat),
      c ∈ props.map Prod.fst → table c = none →
      ∃ e, propEntries table props i = .error (.unknownProperty e) ∧
        table e = none
  | [], _, c, hmem, _ => by simp at hmem
  | (c', v) :: rest, i, c, hmem, hn => by
    cases htc : table c' with
    | none => exact ⟨c', by simp [propEntries, htc], htc⟩
    | some td =>
      have hcr : c ∈ rest.map Prod.fst := by
        simp only [List.map_cons, List.mem_cons] at hmem
        rcases hmem with h | h
        · subst h; rw [htc] at hn; cases hn
        · exact h
      obtain ⟨e, he, hen⟩ := propEntries_unknown table rest (i + 1) c hcr hn
      exact ⟨e, by simp [propEntries, htc, he], hen⟩

/-- C2: the config-schema builder emits property fields in the order the
properties were supplied (insertion order), not sorted by property code;
in particular `build({2: "x", 1: 5})` encodes property-code 2's value
before property-code 1's value. -/
theorem c2_config_schema_insertion_order :
    (∀ (table : Nat → Option TypeDesc) (props : List (Nat × PyValue))
        (query_id : Option Nat) (req : Request),
        cache_create_with_config_request table props query_id = .ok req →
        req.values.map Prod.snd
          = props.map Prod.snd ++ [PyValue.int props.length]) ∧
    cache_create_with_config_request sampleTable
        [(2, .str "x"), (1, .int 5)] none
      = .ok { op_code := OP_CACHE_CREATE_WITH_CONFIGURATION
              schema := [("param_count", .short), ("property_0", .string),
                         ("property_1", .int)]
              values := [("property_0", .str "x"), ("property_1", .int 5),
                         ("param_count", .int 2)]
              query_id := none } := by
  constructor
  · intro table props query_id req h
    unfold cache_create_with_config_request at h
    cases hpe : propEntries table props 0 with
    | error e => rw [hpe] at h; cases h
    | ok p =>
      obtain ⟨ts, vs⟩ := p
      rw [hpe] at h
      injection h with h
      subst h
      have hs := propEntries_spec table props 0 ts vs hpe
      simp [List.map_append, hs.1]
  · rfl

/-- C2 witness: the general insertion-order law instantiated at the
two-property map `{2: "x", 1: 5}`. -/
theorem c2_config_schema_insertion_order_witness :
    ({ op_code := OP_CACHE_CREATE_WITH_CONFIGURATION
       schema := [("param_count", TypeDesc.short),
                  ("property_0", TypeDesc.string),
                  ("property_1", TypeDesc.int)]
       values := [("property_0", PyValue.str "x"),
                  ("property_1", PyValue.int 5),
                  ("param_count", PyValue.int 2)]
       query_id := none } : Request).values.map Prod.snd
      = [PyValue.str "x", PyValue.int 5] ++ [PyValue.int 2] :=
  c2_config_schema_insertion_order.1 sampleTable
    [(2, .str "x"), (1, .int 5)] none _ rfl

/-- C4: for every property map and query id,
`cache_create_with_config` and `cache_get_or_create_with_config` build
identical request messages — same schema, same field values, same query
id — differing only in the operation code, and the two operation codes
differ. -/
theorem c4_create_and_get_or_create_agree (table : Nat → Option TypeDesc)
    (props : List (Nat × PyValue)) (query_id : Option Nat) :
    cache_get_or_create_with_config_request table props query_id
      = (cache_create_with_config_request table props query_id).map
          (fun r =>
            { r with op_code := OP_CACHE_GET_OR_CREATE_WITH_CONFIGURATION }) ∧
    cache_create_with_config_request table props query_id
      = (cache_get_or_create_with_config_request table props query_id).map
          (fun r =>
            { r with op_code := OP_CACHE_CREATE_WITH_CONFIGURATION }) ∧
    OP_CACHE_CREATE_WITH_CONFIGURATION
      ≠ OP_CACHE_GET_OR_CREATE_WITH_CONFIGURATION := by
  unfold cache_create_with_config_request
    cache_get_or_create_with_config_request
  cases propEntries table props 0 with
  | error e => exact ⟨rfl, rfl, by decide⟩
  | ok p => obtain ⟨ts, vs⟩ := p; exact ⟨rfl, rfl, by decide⟩

/-- C6: the request schema built by the config-schema builder has as its
first field the parameter count — equal to the number of property entries,
bound in the value dictionary and encoded as a fixed-width (2-byte Short)
integer — followed by one field per property. -/
theorem c6_param_count_first (table : Nat → Option TypeDesc)
    (props : List (Nat × PyValue)) (query_id : Option Nat) (req : Request)
    (h : cache_create_with_config_request table props query_id = .ok req) :
    ∃ ts vs, req.schema = ("param_count", TypeDesc.short) :: ts ∧
      ts.length = props.length ∧
      req.values = vs ++ [("param_count", PyValue.int props.length)] ∧
      vs.length = props.length ∧
      fixedWidth TypeDesc.short = some 2 := by
  unfold cache_create_with_config_request at h
  cases hpe : propEntries table props 0 with
  | error e => rw [hpe] at h; cases h
  | ok p =>
    obtain ⟨ts, vs⟩ := p
    rw [hpe] at h
    injection h with h
    subst h
    have hs := propEntries_spec table props 0 ts vs hpe
    exact ⟨ts, vs, rfl, hs.2.1, rfl, hs.2.2, rfl⟩

/-- C6 witness: instantiated at the two-property map `{2: "x", 1: 5}`. -/
theorem c6_param_count_first_witness :
    ∃ ts vs,
      ({ op_code := OP_CACHE_CREATE_WITH_CONFIGURATION
         schema := [("param_count", TypeDesc.short),
                    ("property_0", TypeDesc.string),
                    ("property_1", TypeDesc.int)]
         values := [("property_0", PyValue.str "x"),
                    ("property_1", PyValue.int 5),
                    ("param_count", PyValue.int 2)]
         query_id := none } : Request).schema
        = ("param_count", TypeDesc.short) :: ts ∧
      ts.length = 2 ∧
      ({ op_code := OP_CACHE_CREATE_WITH_CONFIGURATION
         schema := [("param_count", TypeDesc.short),
                    ("property_0", TypeDesc.string),
                    ("property_1", TypeDesc.int)]
         values := [("property_0", PyValue.str "x"),
                    ("property_1", PyValue.int 5),
                    ("param_count", PyValue.int 2)]
         query_id := none } : Request).values
        = vs ++ [("param_count", PyValue.int 2)] ∧
      vs.length = 2 ∧
      fixedWidth TypeDesc.short = some 2 :=
  c6_param_count_first sampleTable [(2, .str "x"), (1, .int 5)] none _ rfl

/-- C8: for every property map containing a property code with no entry in
the property-code→type table, both config-request builders fail with an
UnknownPropertyError (for some code absent from the table) rather than
producing a schema. -/
theorem c8_unknown_property_code (table : Nat → Option TypeDesc)
    (props : List (Nat × PyValue)) (query_id : Option Nat) (c : Nat)
    (hmem : c ∈ props.map Prod.fst) (hnone : table c = none) :
    (∃ e, cache_create_with_config_request table props query_id
        = .error (ConfigError.unknownProperty e) ∧ table e = none) ∧
    (∃ e, cache_get_or_create_with_config_request table props query_id
        = .error (ConfigError.unknownProperty e) ∧ table e = none) := by
  obtain ⟨e, he, hen⟩ := propEntries_unknown table props 0 c hmem hnone
  refine ⟨⟨e, ?_, hen⟩, ⟨e, ?_, hen⟩⟩
  · unfold cache_create_with_config_request; rw [he]
  · unfold cache_get_or_create_with_config_request; rw [he]

/-- C8 witness: instantiated at the map `{9: 0}`, whose code 9 has no
entry in the sample table. -/
theorem c8_unknown_property_code_witness :
    (∃ e, cache_create_with_config_request sampleTable
        [(9, PyValue.int 0)] none
        = .error (ConfigError.unknownProperty e) ∧ sampleTable e = none) ∧
    (∃ e, cache_get_or_create_with_config_request sampleTable
        [(9, PyValue.int 0)] none
        = .error (ConfigError.unknownProperty e) ∧ sampleTable e = none) :=
  c8_unknown_property_code sampleTable [(9, .int 0)] none 9
    (by decide) (by decide)

theorem decodeFields_names (fdec : TypeDesc → Bytes → Option (PyValue × Bytes)) :
    ∀ (schema : List (String × TypeDesc)) (bs : Bytes)
      (fs : List (String × PyValue)) (rest : Bytes),
      decodeFields fdec schema bs = some (fs, rest) →
      fs.map Prod.fst = schema.map Prod.fst
  | [], bs, fs, rest, h => by
    simp [decodeFields] at h
    simp [h.1]
  | (name, td) :: schema', bs, fs, rest, h => by
    cases hf : fdec td bs with
    | none => simp [decodeFields, hf] at h
    | some pv =>
      cases hr : decodeFields fdec schema' pv.2 with
      | none => simp [decodeFields, hf, hr] at h
      | some pr =>
        simp [decodeFields, hf, hr] at h
        have ih := decodeFields_names fdec schema' pv.2 pr.1 pr.2 hr
        simp [← h.1, ih]

theorem decode_response_inv (fdec : TypeDesc → Bytes → Option (PyValue × Bytes))
    (schema : List (String × TypeDesc)) (bs : Bytes) (frame : ResponseFrame)
    (h : decode_response fdec schema bs = some frame) :
    (frame.status = 0 → ∃ fs, frame.body = .success fs ∧
        fs.map Prod.fst = schema.map Prod.fst) ∧
    (frame.status ≠ 0 → ∃ e, frame.body = .failure e) := by
  cases hl : decLE 4 bs with
  | none => simp [decode_response, decodeHeader, hl] at h
  | some pl =>
  cases hq : decLE 8 pl.2 with
  | none => simp [decode_response, decodeHeader, hl, hq] at h
  | some pq =>
  cases hs : decLE 4 pq.2 with
  | none => simp [decode_response, decodeHeader, hl, hq, hs] at h
  | some ps =>
  simp [decode_response, decodeHeader, hl, hq, hs] at h
  by_cases h0 : ps.1 = 0
  · rw [if_pos h0] at h
    cases hdf : decodeFields fdec schema ps.2 with
    | none => simp [hdf] at h
    | some pf =>
      simp [hdf] at h
      obtain ⟨hnil, hfr⟩ := h
      subst hfr
      exact ⟨fun _ => ⟨pf.1, rfl,
          decodeFields_names fdec schema ps.2 pf.1 pf.2 hdf⟩,
        fun hne => absurd h0 hne⟩
  · rw [if_neg h0] at h
    cases he : decLE 4 ps.2 with
    | none => simp [he] at h
    | some pe =>
      simp [he] at h
      obtain ⟨hlen, hfr⟩ := h
      subst hfr
      exact ⟨fun hz => absurd hz h0, fun _ => ⟨pe.2, rfl⟩⟩

/-- C3 (amended): for every declared response schema and every response
that decodes, if the status is nonzero the APIResult produced by the shared
per-operation handling has no decoded value and carries the server-supplied
error text verbatim (which may be empty); if the status is zero it carries
no error text and every declared response field was decoded by name; it is
never partially populated (value and error text are never both present). -/
theorem c3_status_discipline
    (extract : List (String × PyValue) → Option ResultValue)
    (fdec : TypeDesc → Bytes → Option (PyValue × Bytes))
    (schema : List (String × TypeDesc)) (bs : Bytes) (frame : ResponseFrame)
    (h : decode_response fdec schema bs = some frame) :
    (frame.status ≠ 0 →
       (op_handle extract frame).value = none ∧
       ∃ e, (op_handle extract frame).message = some e) ∧
    (frame.status = 0 →
       (op_handle extract frame).message = none ∧
       ∃ fs, frame.body = .success fs ∧
         fs.map Prod.fst = schema.map Prod.fst) ∧
    ¬ ((op_handle extract frame).value ≠ none ∧
       (op_handle extract frame).message ≠ none) := by
  obtain ⟨hsucc, hfail⟩ := decode_response_inv fdec schema bs frame h
  by_cases h0 : frame.status = 0
  · obtain ⟨fs, hbody, hnames⟩ := hsucc h0
    have hmsg : (op_handle extract frame).message = none := by
      simp [op_handle, mkAPIResult, h0, hbody]
    refine ⟨fun hne => absurd h0 hne,
      fun _ => ⟨hmsg, fs, hbody, hnames⟩, ?_⟩
    rintro ⟨_, hm⟩
    exact hm hmsg
  · obtain ⟨e, hbody⟩ := hfail h0
    have heq : op_handle extract frame = mkAPIResult frame := by
      simp [op_handle, h0]
    refine ⟨fun _ => ⟨by simp [heq, mkAPIResult],
        ⟨e, by simp [heq, mkAPIResult, hbody]⟩⟩,
      fun hz => absurd hz h0, ?_⟩
    rintro ⟨hv, _⟩
    exact hv (by simp [heq, mkAPIResult])

/-- C3 counterexample: a response with nonzero status whose error string is
empty decodes to an APIResult with nonzero status, no value, and an EMPTY
error text — refuting "carries a non-empty error text". -/
theorem c3_counterexample_empty_error :
    (decode_response sampleFdec [("value", TypeDesc.anyDataObject)]
        (mkResponseBytes 7 1 (encLE 4 0))).map cache_get_handle
      = some { status := 1, message := some [], value := none } ∧
    (1 : Nat) ≠ 0 ∧ ([] : Bytes).length = 0 := by
  refine ⟨by decide, by decide, rfl⟩

/-- C3 witness: the amended discipline instantiated at the canonical
empty-bodied success response. -/
theorem c3_status_discipline_witness :
    (op_handle (fun _ => none)
        { length := 12, query_id := 7, status := 0,
          body := RespBody.success [] }).message = none := by
  have h := c3_status_discipline (fun _ => none) sampleFdec []
    (canonicalSuccess 7)
    { length := 12, query_id := 7, status := 0, body := RespBody.success [] }
    (by decide)
  exact (h.2.1 rfl).1

/-- C7: for every schema, operation code, request body and query id, the
response corresponding to a request encoded with query id `qid` (the server
echo) decodes — whenever decoding succeeds — to a frame whose echoed query
id equals `qid`. -/
theorem c7_query_id_roundtrip
    (fdec : TypeDesc → Bytes → Option (PyValue × Bytes))
    (schema : List (String × TypeDesc)) (op qid status : Nat)
    (reqBody respBody resp : Bytes) (frame : ResponseFrame)
    (hq : qid < 2 ^ 64)
    (hr : respond_to (encode_request op qid reqBody) status respBody
        = some resp)
    (hd : decode_response fdec schema resp = some frame) :
    frame.query_id = qid := by
  have hq2 : qid % 2 ^ 64 = qid := Nat.mod_eq_of_lt hq
  simp [respond_to, encode_request, decLE_encLE, List.append_assoc, hq2] at hr
  subst hr
  simp [decode_response, decodeHeader, mkResponseBytes, decLE_encLE,
    List.append_assoc, hq2] at hd
  split at hd
  · cases hdf : decodeFields fdec schema respBody with
    | none => simp [hdf] at hd
    | some pf =>
      simp [hdf] at hd
      obtain ⟨-, hfr⟩ := hd
      subst hfr
      exact Nat.mod_eq_of_lt hq
  · cases he : decLE 4 respBody with
    | none => simp [he] at hd
    | some pe =>
      simp [he] at hd
      obtain ⟨-, hfr⟩ := hd
      subst hfr
      exact Nat.mod_eq_of_lt hq

/-- C7 witness: a concrete round trip with query id 42. -/
theorem c7_query_id_roundtrip_witness :
    ({ length := 12, query_id := 42, status := 0,
       body := RespBody.success [] } : ResponseFrame).query_id = 42 :=
  c7_query_id_roundtrip sampleFdec [] 1001 42 0 [] []
    (mkResponseBytes 42 0 [])
    { length := 12, query_id := 42, status := 0, body := RespBody.success [] }
    (by decide) (by decide) (by decide)

end PyIgnite
